import Mathlib

/-!
# Verification of the VKPy event-dispatch library (`src/__init__.py`)

Shallow embedding of the library's data model and operations:

* Python runtime values occurring in the code are modelled by `PyVal`
  (JSON-style values), Python exceptions by `PyErr`, and fallible Python
  expressions by `Except PyErr PyVal`.
* `Event`, `TypeRule`, `MessageRule`, `Handler` and the `VKBot` registration
  and `run` loop are translated line by line from the source; comments cite
  the line numbers of `src/__init__.py`.
* The long-poll loop is embedded as a fuel-indexed interpreter `runLoop` that
  consumes scripted environment responses (`PollDesc` for
  `groups.getLongPollServer`, `PollResp` for the long-poll HTTP GET) and
  emits the observable trace of actions (`Act`).
-/

/-- Python exceptions that the modelled code can raise. -/
inductive PyErr where
  | typeError
  | keyError
  | attributeError
  | notImplementedError
deriving DecidableEq, Repr

/-- Python values manipulated by the library: JSON-style data.
`dictV` carries an association list; Python dicts never hold duplicate keys,
and dict equality ignores key order (see `pyEq`). -/
inductive PyVal where
  | noneV
  | boolV (b : Bool)
  | intV (n : Int)
  | strV (s : String)
  | listV (l : List PyVal)
  | dictV (d : List (String × PyVal))

/-- A Python dict with string keys, as produced by JSON decoding. -/
abbrev PyDict := List (String × PyVal)

mutual

/-- Python `==` on the modelled values: `True == 1`, cross-type comparisons
are `False`, lists compare pointwise, and dicts compare as unordered
key-value maps — CPython's algorithm: equal lengths and every key of one
side present in the other with a `==`-equal value (dicts are duplicate-key
free, so checking one direction under the length guard suffices). -/
def pyEq : PyVal → PyVal → Bool
  | .noneV, .noneV => true
  | .boolV a, .boolV b => a == b
  | .intV a, .intV b => a == b
  | .boolV a, .intV b => (if a then (1 : Int) else 0) == b
  | .intV a, .boolV b => a == (if b then (1 : Int) else 0)
  | .strV a, .strV b => a == b
  | .listV a, .listV b => a.length == b.length && pyEqListR a b
  | .dictV a, .dictV b => a.length == b.length && pyDictGeR a b
  | _, _ => false
termination_by structural _ b => b

/-- Pointwise Python `==` on lists, under the caller's equal-length guard
(the left remainder is ignored once the right is exhausted). -/
def pyEqListR : List PyVal → List PyVal → Bool
  | _, [] => true
  | a :: as, b :: bs => pyEq a b && pyEqListR as bs
  | [], _ :: _ => false
termination_by structural _ b => b

/-- Every entry of the second dict is present (with a `==`-equal value) in
the first, looked up by key equality alone, as CPython does. -/
def pyDictGeR : List (String × PyVal) → List (String × PyVal) → Bool
  | _, [] => true
  | d1, (k, v) :: rest =>
    (match d1.lookup k with
     | some v1 => pyEq v1 v
     | none => false) && pyDictGeR d1 rest
termination_by structural _ b => b

end

/-- Python truthiness of a value (`bool(v)`): `None`, `False`, `0`, `""`,
`[]` and `{}` are falsy. -/
def pyTruthy : PyVal → Bool
  | .noneV => false
  | .boolV b => b
  | .intV n => n != 0
  | .strV s => s != ""
  | .listV l => !l.isEmpty
  | .dictV d => !d.isEmpty

/-- Truthiness of the outcome of a fallible Python expression: a raised
exception is not a truthy result. -/
def resTruthy : Except PyErr PyVal → Bool
  | .ok v => pyTruthy v
  | .error _ => false

/-- Python `d.get(k)` on a dict: the stored value, or `None` when absent. -/
def dictGet (d : PyDict) (k : String) : PyVal :=
  match d.lookup k with
  | some v => v
  | none => .noneV

/-- Method call `msg.get(k)`: the `.get` attribute exists only on dicts; every other
modelled value (`None`, bools, ints, strings, lists) has no `get` method and
raises `AttributeError`. -/
def pyGet (msg : PyVal) (k : String) : Except PyErr PyVal :=
  match msg with
  | .dictV d => .ok (dictGet d k)
  | _ => .error .attributeError

/-- Variant `msg.get(k, default)` with an explicit default. -/
def pyGetD (msg : PyVal) (k : String) (dflt : PyVal) : Except PyErr PyVal :=
  match msg with
  | .dictV d =>
    match d.lookup k with
    | some v => .ok v
    | none => .ok dflt
  | _ => .error .attributeError

/-- Subscription `v[k]` with a string key: dict lookup (`KeyError` when the
key is absent); strings and lists require integer indices (`TypeError`);
`None`, bools and ints are not subscriptable (`TypeError`). -/
def pySubscr (v : PyVal) (k : String) : Except PyErr PyVal :=
  match v with
  | .dictV d =>
    match d.lookup k with
    | some w => .ok w
    | none => .error .keyError
  | _ => .error .typeError

/-- Iteration `for i in v`: lists iterate over elements, strings over one-character
strings, dicts over their keys; `None`, bools and ints are not iterable
(`TypeError`). -/
def pyIter (v : PyVal) : Except PyErr (List PyVal) :=
  match v with
  | .listV l => .ok l
  | .strV s => .ok (s.toList.map (fun c => .strV (String.mk [c])))
  | .dictV d => .ok (d.map (fun kv => .strV kv.1))
  | _ => .error .typeError

/-- Python `x | y` as used by `check |= ...` (line 64 onwards): defined for
bool/int operands (bools are ints; `|` is bitwise or), `TypeError` for every
other operand — in particular `bool | None` and `bool | re.Match` raise. -/
def pyOr (a b : PyVal) : Except PyErr PyVal :=
  match a, b with
  | .boolV x, .boolV y => .ok (.boolV (x || y))
  | .boolV x, .intV m => .ok (.intV (Int.lor (if x then 1 else 0) m))
  | .intV n, .boolV y => .ok (.intV (Int.lor n (if y then 1 else 0)))
  | .intV n, .intV m => .ok (.intV (Int.lor n m))
  | _, _ => .error .typeError

/-- Membership `needle in hay` for Python strings: `needle` occurs as a contiguous
substring of `hay` (the empty string occurs in every string). -/
def strIn (needle hay : String) : Bool :=
  (List.range (hay.toList.length + 1)).any
    (fun i => needle.toList.isPrefixOf (hay.toList.drop i))

/-- Python `needle in v` with a string needle: substring test on strings,
`==`-membership on lists, key membership on dicts, `TypeError` otherwise. -/
def pyInVal (needle : String) (v : PyVal) : Except PyErr PyVal :=
  match v with
  | .strV s => .ok (.boolV (strIn needle s))
  | .listV l => .ok (.boolV (l.any (fun x => pyEq (.strV needle) x)))
  | .dictV d => .ok (.boolV (d.any (fun kv => kv.1 == needle)))
  | _ => .error .typeError

/-- Python `x in l` for a list of strings (`i['type'] in self.attachment_types`,
line 66): membership via `==`. -/
def pyInStrList (v : PyVal) (l : List String) : Bool :=
  l.any (fun s => pyEq v (.strV s))

/-! ## Event (lines 9-17) -/

/-- State set up by `Event.__init__` (lines 12-17). A slot holds `some v` once assigned; when
the constructor's `json` argument is falsy (`None` or an empty dict, line 13)
the `__slots__` entries stay unset (`none`) and reading them raises
`AttributeError`. `time_created` (wall-clock timestamp, line 14) is read by
no code in the repository and is not modelled. -/
structure Event where
  type : Option PyVal
  object : Option PyVal
  group_id : Option PyVal

/-- Constructor call `Event(json)` on a decoded JSON dict (lines 12-17): a truthy (non-empty)
dict assigns all three slots via `json.get(...)`; an empty dict is falsy and
leaves every slot unset. -/
def Event.ofJson (json : PyDict) : Event :=
  if json.isEmpty then ⟨none, none, none⟩
  else ⟨some (dictGet json "type"), some (dictGet json "object"),
        some (dictGet json "group_id")⟩

/-! ## TypeRule (lines 33-45) -/

/-- Constructor `TypeRule.__init__` (lines 35-37): a required event-type string and an
optional refinement callable. A callable may raise (`Except.error`) and may
return any Python value; `None` is modelled as `none` (the guard
`if self.function:` on line 41 is function-object truthiness). -/
structure TypeRule where
  type : String
  function : Option (Event → Except PyErr PyVal)

/-- Method `TypeRule.check` (lines 39-45): `self.type == event.type` — reading
`event.type` raises on an unset slot; on a match, return `self.function(event)`
when a refinement is configured, else `True`; otherwise `False`. -/
def TypeRule.check (r : TypeRule) (e : Event) : Except PyErr PyVal :=
  match e.type with
  | none => .error .attributeError
  | some t =>
    if pyEq (.strV r.type) t then
      match r.function with
      | some f => f e
      | none => .ok (.boolV true)
    else .ok (.boolV false)

/-! ## MessageRule (lines 48-81) -/

/-- Constructor `MessageRule.__init__` (lines 52-59): six optional match conditions, all
defaulting to `None`. -/
structure MessageRule where
  attachment_types : Option (List String)
  payload : Option PyDict
  func_text : Option (Event → Except PyErr PyVal)
  func_msg : Option (Event → Except PyErr PyVal)
  regexp : Option String
  commands : Option (List String)

/-- Truthiness of an optional-list field (`if self.attachment_types:` etc.):
`None` and the empty list are falsy. -/
def optListTruthy {α : Type} : Option (List α) → Bool
  | some (_ :: _) => true
  | _ => false

/-- Truthiness of the optional `payload` dict: `None` and `{}` are falsy. -/
def optDictTruthy : Option PyDict → Bool
  | some (_ :: _) => true
  | _ => false

/-- Truthiness of the optional `regexp` string: `None` and `""` are falsy. -/
def optStrTruthy : Option String → Bool
  | some s => s != ""
  | none => false

/-- One `if <field>: check |= <cond>` statement of `MessageRule.check`
(lines 65-72): when the guard is truthy, the condition's value is folded into
the accumulator with Python `|`; exceptions (from an earlier statement, from
the condition, or from `|` itself) propagate. -/
def orStep (guard : Bool) (cond : Except PyErr PyVal)
    (check : Except PyErr PyVal) : Except PyErr PyVal :=
  match check with
  | .error er => .error er
  | .ok c =>
    if guard then
      match cond with
      | .error er => .error er
      | .ok v => pyOr c v
    else .ok c

/-- Comprehension `[i['type'] in self.attachment_types for i in items]`
(line 66): the list
comprehension materialises every element, so the first raising element
propagates its exception. -/
def attFlags (l : List String) : List PyVal → Except PyErr (List Bool)
  | [] => .ok []
  | i :: rest =>
    match pySubscr i "type" with
    | .error er => .error er
    | .ok ty =>
      match attFlags l rest with
      | .error er => .error er
      | .ok bs => .ok (pyInStrList ty l :: bs)

/-- Line 66: `any([i['type'] in self.attachment_types for i in
msg.get('attachments')])`. `msg.get('attachments')` returns `None` when the
key is absent, and iterating `None` raises `TypeError`. -/
def condAttachments (l : List String) (msg : PyVal) : Except PyErr PyVal :=
  match pyGet msg "attachments" with
  | .error er => .error er
  | .ok atts =>
    match pyIter atts with
    | .error er => .error er
    | .ok items =>
      match attFlags l items with
      | .error er => .error er
      | .ok bs => .ok (.boolV (bs.any id))

/-- Line 68: `msg.get('payload', {}) == self.payload`. -/
def condPayload (p : PyDict) (msg : PyVal) : Except PyErr PyVal :=
  match pyGetD msg "payload" (.dictV []) with
  | .error er => .error er
  | .ok got => .ok (.boolV (pyEq got (.dictV p)))

/-- Lines 73-75: `check |= re.match(self.regexp, msg['text'])`. After
`msg['text']` is read, `re.match` returns an `re.Match` object or `None`
(assuming the configured pattern is itself valid; an invalid pattern raises
`re.error`, also an exception); neither result supports `|` with a bool, and
`re.match` on a non-string subject raises `TypeError` itself — so this
statement always raises once reached. The condition value is therefore an
error; the pattern-matching semantics of `re` never become observable. -/
def condRegexp (msg : PyVal) : Except PyErr PyVal :=
  match pySubscr msg "text" with
  | .error er => .error er
  | .ok _ => .error .typeError

/-- Lines 76-78: `for command in self.commands: check |= command in
msg['text']` — a fold over the commands list; `msg['text']` is re-read on
every iteration. -/
def condCommandsLoop (check : Except PyErr PyVal) (cmds : List String)
    (msg : PyVal) : Except PyErr PyVal :=
  match cmds with
  | [] => check
  | c :: rest =>
    match check with
    | .error er => .error er
    | .ok ck =>
      match pySubscr msg "text" with
      | .error er => .error er
      | .ok t =>
        match pyInVal c t with
        | .error er => .error er
        | .ok b =>
          match pyOr ck b with
          | .error er => .error er
          | .ok ck2 => condCommandsLoop (.ok ck2) rest msg

/-- Calling an optional callable field (`self.func_text(event)`, line 70);
the default branch is never used because the call is guarded by `isSome`. -/
def applyOptFun (f : Option (Event → Except PyErr PyVal)) (e : Event) :
    Except PyErr PyVal :=
  match f with
  | some g => g e
  | none => .ok .noneV

/-- Method `MessageRule.check` (lines 61-81): only `message_new` events are
considered (else `False`, line 81); `check` starts as `False` (line 64) and
each configured condition is OR-folded in source order; the final accumulator
is returned (line 79). -/
def MessageRule.check (r : MessageRule) (e : Event) : Except PyErr PyVal :=
  match e.type with
  | none => .error .attributeError
  | some t =>
    if pyEq t (.strV "message_new") then
      match e.object with
      | none => .error .attributeError
      | some msg =>
        condCommandsLoop
          (orStep (optStrTruthy r.regexp) (condRegexp msg)
            (orStep r.func_msg.isSome (applyOptFun r.func_msg e)
              (orStep r.func_text.isSome (applyOptFun r.func_text e)
                (orStep (optDictTruthy r.payload)
                  (condPayload (r.payload.getD []) msg)
                  (orStep (optListTruthy r.attachment_types)
                    (condAttachments (r.attachment_types.getD []) msg)
                    (.ok (.boolV false)))))))
          (if optListTruthy r.commands then r.commands.getD [] else [])
          msg
    else .ok (.boolV false)

/-! ## Rule polymorphism and Handler (lines 20-96) -/

/-- The open `Rule` hierarchy (lines 20-30): the two built-in variants plus
arbitrary user subclasses, represented by their `check` method. The base
class itself behaves like `custom (fun _ => .error ...)` (line 30 raises; in
fact its format string `"..." % name` is itself a `TypeError`). -/
inductive RuleI where
  | typeR (r : TypeRule)
  | msgR (r : MessageRule)
  | custom (check : Event → Except PyErr PyVal)

/-- Virtual dispatch of `rule.check(event)`. -/
def RuleI.check : RuleI → Event → Except PyErr PyVal
  | .typeR r, e => r.check e
  | .msgR r, e => r.check e
  | .custom f, e => f e

/-- Structure `Handler` (lines 84-89): an immutable (callback, rule) pair. The callback
is modelled as a function into an abstract effect type `ε`: invoking it
produces the value `func ev`, the model's record of that invocation. -/
structure Handler (ε : Type) where
  func : Event → ε
  rule : RuleI

/-- Method `Handler.handle` (lines 91-96): evaluate `self.rule.check(ev)`
(exceptions propagate); when truthy invoke the callback and return `True`,
else return `False` without invoking it. The optional `ε` returned alongside
the bool records whether (and with what effect) the callback ran. -/
def Handler.handle {ε : Type} (h : Handler ε) (ev : Event) :
    Except PyErr (Bool × Option ε) :=
  match h.rule.check ev with
  | .error er => .error er
  | .ok v =>
    if pyTruthy v then .ok (true, some (h.func ev)) else .ok (false, none)

/-- One dispatch pass (lines 151-153): offer `ev` to the handlers in list
order, stopping at the first whose `handle` returns `True`. Returns the
callback effects in invocation order together with whether some handler
accepted the event; a raised exception propagates. -/
def dispatchEvent {ε : Type} (hs : List (Handler ε)) (ev : Event) :
    Except PyErr (List ε × Bool) :=
  match hs with
  | [] => .ok ([], false)
  | h :: rest =>
    match h.handle ev with
    | .error er => .error er
    | .ok (true, eff) => .ok (eff.toList, true)
    | .ok (false, _) =>
      match dispatchEvent rest ev with
      | .error er => .error er
      | .ok (effs, handled) => .ok (effs, handled)

/-! ## VKBot: registration (lines 99-124) and the shared registry -/

/-- Constructor `VKBot.__init__` (lines 102-107): per-instance state is only `v`, `api`,
`logger`, `group_id`. Crucially there is no per-instance `_handlers`
assignment anywhere: `_handlers = []` (line 100) is a class attribute, and
`self._handlers.append(...)` (lines 111, 119, 121) first *reads*
`_handlers` — the lookup falls through the (always empty) instance dict to
the class — and then mutates that one shared list in place. The registry is
therefore process-wide state, modelled as an explicit `List (Handler ε)`
threaded through registration and read by `run`; the `api` client and
`logger` are external collaborators carrying no dispatch state. -/
structure VKBot where
  v : String
  group_id : Int

/-- Attribute `VKBot._handlers` as seen from an instance: the shared class-level list.
Taking `self` as an (unused) argument mirrors the attribute lookup
`self._handlers`, which resolves to the class attribute for every instance. -/
def VKBot.handlersOf {ε : Type} (_self : VKBot) (registry : List (Handler ε)) :
    List (Handler ε) :=
  registry

/-- Decorator `VKBot.handle_message(**message_rule_args)` applied to a callback
(lines 109-114): appends `Handler(func, MessageRule(**args))` to the shared
registry and returns the callback unchanged. -/
def VKBot.handle_message {ε : Type} (self : VKBot) (registry : List (Handler ε))
    (args : MessageRule) (func : Event → ε) :
    List (Handler ε) × (Event → ε) :=
  (self.handlersOf registry ++ [⟨func, .msgR args⟩], func)

/-- Decorator `VKBot.handle_event(rule, event_type)` applied to a callback
(lines 116-124): `if rule:` — a rule object is truthy, `None` falsy — append
`Handler(func, rule)`, else append `Handler(func, TypeRule(event_type))`;
the callback is returned unchanged. -/
def VKBot.handle_event {ε : Type} (self : VKBot) (registry : List (Handler ε))
    (rule : Option RuleI) (event_type : String) (func : Event → ε) :
    List (Handler ε) × (Event → ε) :=
  match rule with
  | some r => (self.handlersOf registry ++ [⟨func, r⟩], func)
  | none => (self.handlersOf registry ++ [⟨func, .typeR ⟨event_type, none⟩⟩], func)

/-! ## VKBot.run (lines 126-162): the long-poll loop -/

/-- The polling-server descriptor returned by
`self.api.groups.getLongPollServer(...)` (line 130): `server`, `key` and the
initial cursor `s['ts']` (line 132; the protocol always supplies `ts`, and
`server`/`key` only feed the request URL on line 133). -/
structure PollDesc where
  server : String
  key : String
  ts : PyVal

/-- One decoded long-poll response `rq` (line 136): the optional `failed`
code (`rq.get('failed')`, an integer in this protocol, absent on success),
the update batch (`rq.get('updates', [])`; each raw update is a decoded JSON
dict), and the optional new cursor (`rq.get('ts', 1)` defaults to `1`). -/
structure PollResp where
  failed : Option Int
  updates : List PyDict
  ts : Option PyVal

/-- Python truthiness of `rq.get('failed')` (line 137): absent → `None` →
falsy; an integer code is truthy iff non-zero. -/
def failedTruthy : Option Int → Bool
  | none => false
  | some c => c != 0

/-- Observable actions of one run of `VKBot.run`, in program order:
`acquire` = a `getLongPollServer` call, `poll ts` = a long-poll GET carrying
cursor `ts`, `cb e` = a handler callback invocation with effect `e`,
`unhandled` = the no-handler warning (line 155), `exn er` = an exception
escaping `run`, `shutdown` = the "Shutting down" exit (line 160). -/
inductive Act (ε : Type) where
  | acquire
  | poll (ts : PyVal)
  | cb (e : ε)
  | unhandled
  | exn (er : PyErr)
  | shutdown

/-- Offering one wrapped update to all handlers (lines 150-156): the `for`
loop with its `else` clause. When no handler accepts, the warning on
line 155 formats `ev.type`, which raises `AttributeError` on an event whose
slots are unset (an empty update dict). -/
def offerEvent {ε : Type} (hs : List (Handler ε)) (ev : Event) :
    Except PyErr (List (Act ε)) :=
  match dispatchEvent hs ev with
  | .error er => .error er
  | .ok (effs, true) => .ok (effs.map .cb)
  | .ok (effs, false) =>
    match ev.type with
    | some _ => .ok (effs.map .cb ++ [.unhandled])
    | none => .error .attributeError

/-- Processing one batch (lines 148-156): wrap each raw update into an
`Event` and offer it in array order; the first exception aborts the batch
(and, upstream, the whole `run` call) after the effects of the earlier
updates have already happened. -/
def batchActs {ε : Type} (hs : List (Handler ε)) :
    List PyDict → List (Act ε) × Option PyErr
  | [] => ([], none)
  | u :: rest =>
    match offerEvent hs (Event.ofJson u) with
    | .error er => ([.exn er], some er)
    | .ok acts =>
      match batchActs hs rest with
      | (acts2, er) => (acts ++ acts2, er)

/-- The loop's control position: `acquire` = about to call
`getLongPollServer` (top of the outer `while`, line 129), `poll` = about to
issue the long-poll GET (top of the inner `while`, line 135). -/
inductive Phase where
  | acquire
  | poll
deriving DecidableEq

/-- Fuel-indexed interpreter for `VKBot.run(reload)` (lines 126-162) against
a scripted environment: `servers` answers successive `getLongPollServer`
calls and `polls` answers successive GETs, each stream consumed in order
(an exhausted stream, like exhausted fuel, simply ends the trace — the model
of an environment that stops responding). The emitted trace follows the
source: on `rq.get('failed')` truthy, code `1` retries the GET with the
cursor unchanged (`continue`, line 140) and any other code leaves the inner
loop (line 142), after which `run` returns (lines 159-161) unless
`reload=True`, in which case the outer loop re-acquires a server; on
success the batch is dispatched and then `ts = rq.get('ts', 1)` (line 158). -/
def runLoop {ε : Type} (hs : List (Handler ε)) (reload : Bool) :
    Nat → Phase → PyVal → List PollDesc → List PollResp → List (Act ε)
  | 0, _, _, _, _ => []
  | _ + 1, .acquire, _, [], _ => []
  | fuel + 1, .acquire, _, d :: srest, polls =>
    Act.acquire :: runLoop hs reload fuel .poll d.ts srest polls
  | _ + 1, .poll, _, _, [] => []
  | fuel + 1, .poll, ts, servers, r :: prest =>
    Act.poll ts ::
      (if failedTruthy r.failed then
        if r.failed = some 1 then
          runLoop hs reload fuel .poll ts servers prest
        else if reload then
          runLoop hs reload fuel .acquire ts servers prest
        else [Act.shutdown]
      else
        match batchActs hs r.updates with
        | (acts, some _) => acts
        | (acts, none) =>
          acts ++ runLoop hs reload fuel .poll (r.ts.getD (.intV 1)) servers prest)

/-- Entry point `VKBot.run(threaded, reload)` (line 126): `threaded` is accepted and
ignored by the source, and the handler registry consulted on line 151 is the
shared class-level list. -/
def VKBot.run {ε : Type} (self : VKBot) (registry : List (Handler ε))
    (reload : Bool) (fuel : Nat) (servers : List PollDesc)
    (polls : List PollResp) : List (Act ε) :=
  runLoop (self.handlersOf registry) reload fuel .acquire .noneV servers polls

/-- The trace of a straight run of successful poll cycles with cursor `ts`
on arrival: each cycle polls with the current cursor, emits its batch's
actions, and hands the cursor `rq.get('ts', 1)` of its response to the next
cycle. -/
def successTrace {ε : Type} (hs : List (Handler ε)) (ts : PyVal) :
    List PollResp → List (Act ε)
  | [] => []
  | r :: rest =>
    Act.poll ts :: ((batchActs hs r.updates).1 ++
      successTrace hs (r.ts.getD (.intV 1)) rest)

/-- The cursor held after consuming the given successful responses, starting
from `ts`. -/
def finalTs (ts : PyVal) : List PollResp → PyVal
  | [] => ts
  | r :: rest => finalTs (r.ts.getD (.intV 1)) rest

/-! ## Helper lemmas -/

/-- A skipped `if <field>:` statement leaves the accumulator unchanged. -/
lemma orStep_false (cond ck : Except PyErr PyVal) :
    orStep false cond ck = ck := by
  cases ck <;> simp [orStep]

/-- An earlier exception short-circuits a later `check |=` statement. -/
lemma orStep_error (g : Bool) (cond : Except PyErr PyVal) (er : PyErr) :
    orStep g cond (.error er) = .error er := rfl

/-- A boolean condition OR-folded into a boolean accumulator stays boolean. -/
lemma orStep_safe (g : Bool) (cond ck : Except PyErr PyVal)
    (hck : ∃ a : Bool, ck = .ok (.boolV a))
    (hcond : g = true → ∃ b : Bool, cond = .ok (.boolV b)) :
    ∃ c : Bool, orStep g cond ck = .ok (.boolV c) := by
  obtain ⟨a, rfl⟩ := hck
  cases g with
  | false => exact ⟨a, by simp [orStep]⟩
  | true =>
    obtain ⟨b, rfl⟩ := hcond rfl
    exact ⟨a || b, by simp [orStep, pyOr]⟩

/-- The commands loop on a string message text computes the OR of the
accumulator with the substring tests of all commands. -/
lemma condCommandsLoop_any (msg : PyVal) (s : String)
    (hT : pySubscr msg "text" = .ok (.strV s)) :
    ∀ (cmds : List String) (a : Bool),
      condCommandsLoop (.ok (.boolV a)) cmds msg =
        .ok (.boolV (a || cmds.any (fun c => strIn c s))) := by
  intro cmds
  induction cmds with
  | nil => intro a; simp [condCommandsLoop]
  | cons c rest ih =>
    intro a
    simp only [condCommandsLoop, hT, pyInVal, pyOr, List.any_cons]
    rw [ih (a || strIn c s)]
    simp [Bool.or_assoc]

/-! ## C6: TypeRule.check characterisation -/

/-- C6 (confirmed). For every `Event` `E` and `TypeRule` `R`,
`R.check(E)` is truthy iff `E.type` equals `R`'s configured event type
(Python `==`, which is false when the `type` slot is unset — then `check`
in fact raises `AttributeError`, which is not a truthy outcome) and either
`R` has no refinement function or the refinement applied to `E` yields a
truthy result (a raised or falsy refinement result is not truthy). -/
theorem typeRule_check_truthy_iff (r : TypeRule) (e : Event) :
    resTruthy (r.check e) =
      ((match e.type with
        | some t => pyEq (.strV r.type) t
        | none => false) &&
       (match r.function with
        | some f => resTruthy (f e)
        | none => true)) := by
  cases hty : e.type with
  | none => simp [TypeRule.check, hty, resTruthy]
  | some t =>
    cases hm : pyEq (.strV r.type) t with
    | false =>
      cases r.function <;>
        simp [TypeRule.check, hty, hm, resTruthy, pyTruthy]
    | true =>
      cases hf : r.function with
      | none => simp [TypeRule.check, hty, hm, hf, resTruthy, pyTruthy]
      | some f => simp [TypeRule.check, hty, hm, hf, resTruthy]

/-! ## C1: totality / non-raising of `check` -/

/-- C1 (refuted as stated): `MessageRule.check` *can* raise on a
`message_new` event. With `attachment_types` configured and a message object
lacking the `attachments` key, `msg.get('attachments')` is `None` (line 66)
and iterating it raises `TypeError`. -/
theorem messageRule_check_raises_cex :
    MessageRule.check ⟨some ["photo"], none, none, none, none, none⟩
      ⟨some (.strV "message_new"), some (.dictV []), some .noneV⟩
      = .error .typeError ∧
    ∀ v : PyVal,
      MessageRule.check ⟨some ["photo"], none, none, none, none, none⟩
        ⟨some (.strV "message_new"), some (.dictV []), some .noneV⟩ ≠ .ok v :=
  ⟨rfl, fun _ h => Except.noConfusion
    ((rfl : MessageRule.check ⟨some ["photo"], none, none, none, none, none⟩
      ⟨some (.strV "message_new"), some (.dictV []), some .noneV⟩
      = .error .typeError).symm.trans h)⟩

/-- C1 (amended). `check` is a pure boolean-returning function — it never
raises — *provided* the event's slots are set and the data it touches is
well-shaped: for `TypeRule`, any configured refinement must itself return a
boolean without raising; for `MessageRule`, additionally the configured
conditions' lookups must succeed (`condAttachments` yields a boolean when
`attachment_types` is truthy, `condPayload` when `payload` is truthy, the
message text is a string when `commands` is truthy) and `regexp` must not be
configured (a truthy `regexp` always raises `TypeError`, see `condRegexp`).
Purity (no side effects) holds by construction of the embedding: both
`check` methods only read their inputs and call the user predicates. -/
theorem rule_check_safe
    (tr : TypeRule) (mr : MessageRule) (e : Event) (t msgv : PyVal)
    (hty : e.type = some t) (hobj : e.object = some msgv)
    (htr : ∀ f, tr.function = some f → ∃ b : Bool, f e = .ok (.boolV b))
    (hatt : optListTruthy mr.attachment_types = true →
      ∃ b : Bool, condAttachments (mr.attachment_types.getD []) msgv = .ok (.boolV b))
    (hpay : optDictTruthy mr.payload = true →
      ∃ b : Bool, condPayload (mr.payload.getD []) msgv = .ok (.boolV b))
    (hft : ∀ f, mr.func_text = some f → ∃ b : Bool, f e = .ok (.boolV b))
    (hfm : ∀ f, mr.func_msg = some f → ∃ b : Bool, f e = .ok (.boolV b))
    (hre : optStrTruthy mr.regexp = false)
    (hcmd : optListTruthy mr.commands = true →
      ∃ s : String, pySubscr msgv "text" = .ok (.strV s)) :
    (∃ b : Bool, tr.check e = .ok (.boolV b)) ∧
    (∃ b : Bool, mr.check e = .ok (.boolV b)) := by
  constructor
  · rw [TypeRule.check, hty]
    cases hm : pyEq (.strV tr.type) t with
    | false => exact ⟨false, by simp [hm]⟩
    | true =>
      cases hf : tr.function with
      | none => exact ⟨true, by simp [hm]⟩
      | some f =>
        obtain ⟨b, hb⟩ := htr f hf
        exact ⟨b, by simp [hm, hb]⟩
  · rw [MessageRule.check, hty]
    cases hm : pyEq t (.strV "message_new") with
    | false => exact ⟨false, by simp [hm]⟩
    | true =>
      rw [hobj]
      simp only [hm, if_true]
      have hft2 : mr.func_text.isSome = true →
          ∃ b : Bool, applyOptFun mr.func_text e = .ok (.boolV b) := by
        intro hsome
        cases hf : mr.func_text with
        | none => rw [hf] at hsome; simp at hsome
        | some f =>
          obtain ⟨b, hb⟩ := hft f hf
          exact ⟨b, by simp [applyOptFun, hf, hb]⟩
      have hfm2 : mr.func_msg.isSome = true →
          ∃ b : Bool, applyOptFun mr.func_msg e = .ok (.boolV b) := by
        intro hsome
        cases hf : mr.func_msg with
        | none => rw [hf] at hsome; simp at hsome
        | some f =>
          obtain ⟨b, hb⟩ := hfm f hf
          exact ⟨b, by simp [applyOptFun, hf, hb]⟩
      obtain ⟨b1, h1⟩ := orStep_safe (optListTruthy mr.attachment_types)
        (condAttachments (mr.attachment_types.getD []) msgv)
        (.ok (.boolV false)) ⟨false, rfl⟩ hatt
      rw [h1]
      obtain ⟨b2, h2⟩ := orStep_safe (optDictTruthy mr.payload)
        (condPayload (mr.payload.getD []) msgv)
        (.ok (.boolV b1)) ⟨b1, rfl⟩ hpay
      rw [h2]
      obtain ⟨b3, h3⟩ := orStep_safe mr.func_text.isSome
        (applyOptFun mr.func_text e) (.ok (.boolV b2)) ⟨b2, rfl⟩ hft2
      rw [h3]
      obtain ⟨b4, h4⟩ := orStep_safe mr.func_msg.isSome
        (applyOptFun mr.func_msg e) (.ok (.boolV b3)) ⟨b3, rfl⟩ hfm2
      rw [h4]
      rw [hre, orStep_false]
      cases hcm : optListTruthy mr.commands with
      | false => exact ⟨b4, by simp [condCommandsLoop]⟩
      | true =>
        obtain ⟨s, hs⟩ := hcmd hcm
        simp only [if_true]
        rw [condCommandsLoop_any msgv s hs (mr.commands.getD []) b4]
        exact ⟨_, rfl⟩

/-- Witness for `rule_check_safe`: a `TypeRule` with no refinement and a
`MessageRule` with one command, on a well-shaped `message_new` event. -/
theorem rule_check_safe_witness :
    (∃ b : Bool, TypeRule.check ⟨"message_new", none⟩
      ⟨some (.strV "message_new"), some (.dictV [("text", .strV "/start now")]),
       some .noneV⟩ = .ok (.boolV b)) ∧
    (∃ b : Bool, MessageRule.check ⟨none, none, none, none, none, some ["/start"]⟩
      ⟨some (.strV "message_new"), some (.dictV [("text", .strV "/start now")]),
       some .noneV⟩ = .ok (.boolV b)) :=
  rule_check_safe ⟨"message_new", none⟩
    ⟨none, none, none, none, none, some ["/start"]⟩
    ⟨some (.strV "message_new"), some (.dictV [("text", .strV "/start now")]),
     some .noneV⟩
    (.strV "message_new") (.dictV [("text", .strV "/start now")])
    rfl rfl
    (fun _ h => Option.noConfusion h)
    (fun h => Bool.noConfusion h)
    (fun h => Bool.noConfusion h)
    (fun _ h => Option.noConfusion h)
    (fun _ h => Option.noConfusion h)
    rfl
    (fun _ => ⟨"/start now", rfl⟩)

/-! ## C7: MessageRule.check case analysis -/

/-- C7 (refuted as stated): a `MessageRule` with exactly the `regexp`
condition configured does not return that condition's truth value on a
well-shaped `message_new` event whose text the pattern matches — it raises
`TypeError`, because `check |= re.match(...)` (line 75) applies `|` to a
bool and an `re.Match`/`None`. -/
theorem messageRule_regexp_cex :
    MessageRule.check ⟨none, none, none, none, some "a", none⟩
      ⟨some (.strV "message_new"), some (.dictV [("text", .strV "abc")]),
       some .noneV⟩ = .error .typeError ∧
    ∀ v : PyVal,
      MessageRule.check ⟨none, none, none, none, some "a", none⟩
        ⟨some (.strV "message_new"), some (.dictV [("text", .strV "abc")]),
         some .noneV⟩ ≠ .ok v :=
  ⟨rfl, fun _ h => Except.noConfusion
    ((rfl : MessageRule.check ⟨none, none, none, none, some "a", none⟩
      ⟨some (.strV "message_new"), some (.dictV [("text", .strV "abc")]),
       some .noneV⟩ = .error .typeError).symm.trans h)⟩

/-- C7 (amended). On events with a set `type` slot that is not
`message_new`, `check` returns `False`. On `message_new` events with a set
`object` slot: with zero conditions configured `check` returns `False`; with
exactly one condition configured — and truthily so, since falsy
configurations like `[]`, `{}` or `""` are skipped by their `if` guard —
`check` returns exactly that condition's value, *except* for `regexp`, which
always raises: the `attachment_types` condition's value when its lookups
succeed, the `payload` comparison's value, a boolean-returning
`func_text`/`func_msg`'s value, and for `commands` the OR of the substring
tests over a string message text. -/
theorem messageRule_check_cases :
    (∀ (r : MessageRule) (e : Event) (t : PyVal), e.type = some t →
      pyEq t (.strV "message_new") = false →
      r.check e = .ok (.boolV false)) ∧
    (∀ (e : Event) (t msgv : PyVal), e.type = some t → e.object = some msgv →
      pyEq t (.strV "message_new") = true →
      MessageRule.check ⟨none, none, none, none, none, none⟩ e
        = .ok (.boolV false)) ∧
    (∀ (l : List String) (e : Event) (t msgv : PyVal) (b : Bool), l ≠ [] →
      e.type = some t → e.object = some msgv →
      pyEq t (.strV "message_new") = true →
      condAttachments l msgv = .ok (.boolV b) →
      MessageRule.check ⟨some l, none, none, none, none, none⟩ e
        = .ok (.boolV b)) ∧
    (∀ (p : PyDict) (e : Event) (t msgv : PyVal) (b : Bool), p ≠ [] →
      e.type = some t → e.object = some msgv →
      pyEq t (.strV "message_new") = true →
      condPayload p msgv = .ok (.boolV b) →
      MessageRule.check ⟨none, some p, none, none, none, none⟩ e
        = .ok (.boolV b)) ∧
    (∀ (f : Event → Except PyErr PyVal) (e : Event) (t msgv : PyVal) (b : Bool),
      e.type = some t → e.object = some msgv →
      pyEq t (.strV "message_new") = true →
      f e = .ok (.boolV b) →
      MessageRule.check ⟨none, none, some f, none, none, none⟩ e
        = .ok (.boolV b)) ∧
    (∀ (f : Event → Except PyErr PyVal) (e : Event) (t msgv : PyVal) (b : Bool),
      e.type = some t → e.object = some msgv →
      pyEq t (.strV "message_new") = true →
      f e = .ok (.boolV b) →
      MessageRule.check ⟨none, none, none, some f, none, none⟩ e
        = .ok (.boolV b)) ∧
    (∀ (p : String) (e : Event) (t msgv : PyVal), p ≠ "" →
      e.type = some t → e.object = some msgv →
      pyEq t (.strV "message_new") = true →
      ∃ er : PyErr, MessageRule.check ⟨none, none, none, none, some p, none⟩ e
        = .error er) ∧
    (∀ (cmds : List String) (e : Event) (t msgv : PyVal) (s : String),
      e.type = some t → e.object = some msgv →
      pyEq t (.strV "message_new") = true →
      pySubscr msgv "text" = .ok (.strV s) →
      MessageRule.check ⟨none, none, none, none, none, some cmds⟩ e
        = .ok (.boolV (cmds.any (fun c => strIn c s)))) := by
  refine ⟨?_, ?_, ?_, ?_, ?_, ?_, ?_, ?_⟩
  · intro r e t hty hm
    rw [MessageRule.check, hty]
    simp [hm]
  · intro e t msgv hty hobj hm
    rw [MessageRule.check, hty, hobj]
    simp [hm, optListTruthy, optDictTruthy, optStrTruthy, orStep_false,
      applyOptFun, condCommandsLoop]
  · intro l e t msgv b hl hty hobj hm hA
    obtain ⟨x, xs, rfl⟩ := List.exists_cons_of_ne_nil hl
    rw [MessageRule.check, hty, hobj]
    simp only [hm, if_true]
    simp [optListTruthy, optDictTruthy, optStrTruthy, orStep, hA, pyOr,
      applyOptFun, condCommandsLoop]
  · intro p e t msgv b hp hty hobj hm hP
    obtain ⟨x, xs, rfl⟩ := List.exists_cons_of_ne_nil hp
    rw [MessageRule.check, hty, hobj]
    simp only [hm, if_true]
    simp [optListTruthy, optDictTruthy, optStrTruthy, orStep, hP, pyOr,
      applyOptFun, condCommandsLoop]
  · intro f e t msgv b hty hobj hm hF
    rw [MessageRule.check, hty, hobj]
    simp only [hm, if_true]
    simp [optListTruthy, optDictTruthy, optStrTruthy, orStep, pyOr,
      applyOptFun, hF, condCommandsLoop]
  · intro f e t msgv b hty hobj hm hF
    rw [MessageRule.check, hty, hobj]
    simp only [hm, if_true]
    simp [optListTruthy, optDictTruthy, optStrTruthy, orStep, pyOr,
      applyOptFun, hF, condCommandsLoop]
  · intro p e t msgv hp hty hobj hm
    rw [MessageRule.check, hty, hobj]
    simp only [hm, if_true]
    cases hsub : pySubscr msgv "text" with
    | error er =>
      exact ⟨er, by simp [optListTruthy, optDictTruthy, optStrTruthy, orStep,
        applyOptFun, condRegexp, hsub, hp, condCommandsLoop]⟩
    | ok tv =>
      exact ⟨.typeError, by simp [optListTruthy, optDictTruthy, optStrTruthy,
        orStep, applyOptFun, condRegexp, hsub, hp, condCommandsLoop]⟩
  · intro cmds e t msgv s hty hobj hm hT
    rw [MessageRule.check, hty, hobj]
    simp only [hm, if_true]
    cases cmds with
    | nil =>
      simp [optListTruthy, optDictTruthy, optStrTruthy, orStep_false,
        applyOptFun, condCommandsLoop]
    | cons c rest =>
      simp only [optListTruthy, optDictTruthy, optStrTruthy, orStep_false,
        applyOptFun, Option.isSome_none, Option.getD_some, if_true]
      rw [condCommandsLoop_any msgv s hT (c :: rest) false]
      simp

/-- Witness for `messageRule_check_cases`: the commands-only conjunct at a
concrete rule and event. -/
theorem messageRule_check_cases_witness :
    MessageRule.check ⟨none, none, none, none, none, some ["hi"]⟩
      ⟨some (.strV "message_new"), some (.dictV [("text", .strV "oh hi there")]),
       some .noneV⟩
      = .ok (.boolV ((["hi"] : List String).any
          (fun c => strIn c "oh hi there"))) :=
  messageRule_check_cases.2.2.2.2.2.2.2 ["hi"]
    ⟨some (.strV "message_new"), some (.dictV [("text", .strV "oh hi there")]),
     some .noneV⟩
    (.strV "message_new") (.dictV [("text", .strV "oh hi there")])
    "oh hi there" rfl rfl rfl rfl

/-! ## C9: the commands condition -/

/-- C9 (confirmed). `MessageRule(commands=["/start"])` on a
`message_new` event with text `"/start now"` returns `True`; with text
`"start"` it returns `False`; in general, with only `commands` configured
and a string message text, `check` returns the OR over the configured
commands of "occurs as a substring of the text" (`strIn`). -/
theorem messageRule_commands_substring :
    MessageRule.check ⟨none, none, none, none, none, some ["/start"]⟩
      ⟨some (.strV "message_new"), some (.dictV [("text", .strV "/start now")]),
       some .noneV⟩ = .ok (.boolV true) ∧
    MessageRule.check ⟨none, none, none, none, none, some ["/start"]⟩
      ⟨some (.strV "message_new"), some (.dictV [("text", .strV "start")]),
       some .noneV⟩ = .ok (.boolV false) ∧
    (∀ (cmds : List String) (e : Event) (t msgv : PyVal) (s : String),
      e.type = some t → e.object = some msgv →
      pyEq t (.strV "message_new") = true →
      pySubscr msgv "text" = .ok (.strV s) →
      MessageRule.check ⟨none, none, none, none, none, some cmds⟩ e
        = .ok (.boolV (cmds.any (fun c => strIn c s)))) := by
  refine ⟨rfl, rfl, ?_⟩
  intro cmds e t msgv s hty hobj hm hT
  rw [MessageRule.check, hty, hobj]
  simp only [hm, if_true]
  cases cmds with
  | nil =>
    simp [optListTruthy, optDictTruthy, optStrTruthy, orStep_false,
      applyOptFun, condCommandsLoop]
  | cons c rest =>
    simp only [optListTruthy, optDictTruthy, optStrTruthy, orStep_false,
      applyOptFun, Option.isSome_none, Option.getD_some, if_true]
    rw [condCommandsLoop_any msgv s hT (c :: rest) false]
    simp

/-- Witness for `messageRule_commands_substring`: the general conjunct at a
concrete two-command rule. -/
theorem messageRule_commands_substring_witness :
    MessageRule.check ⟨none, none, none, none, none, some ["/stop", "/go"]⟩
      ⟨some (.strV "message_new"), some (.dictV [("text", .strV "please /go")]),
       some .noneV⟩
      = .ok (.boolV ((["/stop", "/go"] : List String).any
          (fun c => strIn c "please /go"))) :=
  messageRule_commands_substring.2.2 ["/stop", "/go"]
    ⟨some (.strV "message_new"), some (.dictV [("text", .strV "please /go")]),
     some .noneV⟩
    (.strV "message_new") (.dictV [("text", .strV "please /go")])
    "please /go" rfl rfl rfl rfl

/-! ## C2: first-match-wins dispatch -/

/-- Handlers whose rules yield a falsy value without raising are skipped. -/
lemma dispatchEvent_skip {ε : Type} (pre rest : List (Handler ε)) (ev : Event)
    (hpre : ∀ h ∈ pre, ∃ v, h.rule.check ev = .ok v ∧ pyTruthy v = false) :
    dispatchEvent (pre ++ rest) ev = dispatchEvent rest ev := by
  induction pre with
  | nil => rfl
  | cons h pre' ih =>
    obtain ⟨v, hv, hvf⟩ := hpre h (by simp)
    have ih' := ih (fun g hg => hpre g (by simp [hg]))
    simp only [List.cons_append, dispatchEvent, Handler.handle, hv, hvf,
      Bool.false_eq_true, if_false, List.append_eq, ih']
    cases dispatchEvent rest ev with
    | error er => rfl
    | ok p => rfl

/-- A handler whose rule yields a truthy value fires its callback and stops
the pass. -/
lemma dispatchEvent_fire {ε : Type} (h1 : Handler ε) (rest : List (Handler ε))
    (ev : Event) (v : PyVal)
    (hv : h1.rule.check ev = .ok v) (hvt : pyTruthy v = true) :
    dispatchEvent (h1 :: rest) ev = .ok ([h1.func ev], true) := by
  simp [dispatchEvent, Handler.handle, hv, hvt]

/-- C2 (amended). In one dispatch pass over the registered handlers in
registration order, with `H1` registered before `H2`, both matching the
event, *and every handler registered before `H1` cleanly rejecting the
event* (its rule returns a falsy value without raising — the amendment the
counterexample forces, since an earlier matching handler fires instead),
exactly `H1`'s callback is invoked (the effect trace is `[H1.func ev]`) and
`H2`'s is not: the pass stops at `H1` and never reaches `H2`. -/
theorem dispatch_first_match {ε : Type} (pre mid post : List (Handler ε))
    (h1 h2 : Handler ε) (ev : Event) (v1 v2 : PyVal)
    (hpre : ∀ h ∈ pre, ∃ v, h.rule.check ev = .ok v ∧ pyTruthy v = false)
    (h1c : h1.rule.check ev = .ok v1) (h1t : pyTruthy v1 = true)
    (_h2c : h2.rule.check ev = .ok v2) (_h2t : pyTruthy v2 = true) :
    dispatchEvent (pre ++ h1 :: (mid ++ h2 :: post)) ev
      = .ok ([h1.func ev], true) := by
  rw [dispatchEvent_skip pre _ ev hpre]
  exact dispatchEvent_fire h1 _ ev v1 h1c h1t

/-- Witness for `dispatch_first_match`: two matching `TypeRule` handlers
behind one cleanly-rejecting handler. -/
theorem dispatch_first_match_witness :
    dispatchEvent (ε := Nat)
      ([⟨fun _ => 7, .typeR ⟨"wall_post_new", none⟩⟩] ++
        ⟨fun _ => 1, .typeR ⟨"message_new", none⟩⟩ ::
          ([] ++ ⟨fun _ => 2, .typeR ⟨"message_new", none⟩⟩ :: []))
      ⟨some (.strV "message_new"), some (.dictV []), some .noneV⟩
      = .ok ([(fun (_ : Event) => 1) ⟨some (.strV "message_new"),
          some (.dictV []), some .noneV⟩], true) :=
  dispatch_first_match
    [⟨fun _ => 7, .typeR ⟨"wall_post_new", none⟩⟩] [] []
    ⟨fun _ => 1, .typeR ⟨"message_new", none⟩⟩
    ⟨fun _ => 2, .typeR ⟨"message_new", none⟩⟩
    ⟨some (.strV "message_new"), some (.dictV []), some .noneV⟩
    (.boolV true) (.boolV true)
    (by intro h hmem
        simp only [List.mem_singleton] at hmem
        subst hmem
        exact ⟨.boolV false, rfl, rfl⟩)
    rfl rfl rfl rfl

/-- C2 (refuted as stated): the claim quantifies over *every* handler
list, but when a third matching handler `H0` is registered before `H1`, the
pass stops at `H0`: `H1` is before `H2` and both match, yet the effect trace
is `[0]` (only `H0`'s callback), not `[1]` (`H1`'s). -/
theorem dispatch_first_match_cex :
    Handler.handle (ε := Nat) ⟨fun _ => 1, .typeR ⟨"message_new", none⟩⟩
      ⟨some (.strV "message_new"), some (.dictV []), some .noneV⟩
      = .ok (true, some 1) ∧
    Handler.handle (ε := Nat) ⟨fun _ => 2, .typeR ⟨"message_new", none⟩⟩
      ⟨some (.strV "message_new"), some (.dictV []), some .noneV⟩
      = .ok (true, some 2) ∧
    dispatchEvent (ε := Nat)
      [⟨fun _ => 0, .typeR ⟨"message_new", none⟩⟩,
       ⟨fun _ => 1, .typeR ⟨"message_new", none⟩⟩,
       ⟨fun _ => 2, .typeR ⟨"message_new", none⟩⟩]
      ⟨some (.strV "message_new"), some (.dictV []), some .noneV⟩
      = .ok ([0], true) ∧
    dispatchEvent (ε := Nat)
      [⟨fun _ => 0, .typeR ⟨"message_new", none⟩⟩,
       ⟨fun _ => 1, .typeR ⟨"message_new", none⟩⟩,
       ⟨fun _ => 2, .typeR ⟨"message_new", none⟩⟩]
      ⟨some (.strV "message_new"), some (.dictV []), some .noneV⟩
      ≠ .ok ([1], true) := by
  refine ⟨rfl, rfl, rfl, ?_⟩
  intro h
  have h2 : Except.ok (ε := PyErr) ([0], true) = .ok ([1], true) :=
    (rfl : dispatchEvent (ε := Nat)
      [⟨fun _ => 0, .typeR ⟨"message_new", none⟩⟩,
       ⟨fun _ => 1, .typeR ⟨"message_new", none⟩⟩,
       ⟨fun _ => 2, .typeR ⟨"message_new", none⟩⟩]
      ⟨some (.strV "message_new"), some (.dictV []), some .noneV⟩
      = .ok ([0], true)).symm.trans h
  simp at h2

/-! ## C8: registration is append-only (but not idempotent) -/

/-- C8 (refuted as stated): registration is *not* idempotent.
Registering the same callback with the same rule arguments a second time
appends a second `Handler`: the registry after two identical
`handle_message` registrations (length 2) differs from the registry after
one (length 1). -/
theorem registration_not_idempotent_cex :
    (VKBot.handle_message (ε := Nat) ⟨"5.80", 1⟩
      (VKBot.handle_message (ε := Nat) ⟨"5.80", 1⟩ []
        ⟨none, none, none, none, none, none⟩ (fun _ => 0)).1
      ⟨none, none, none, none, none, none⟩ (fun _ => 0)).1
    ≠ (VKBot.handle_message (ε := Nat) ⟨"5.80", 1⟩ []
        ⟨none, none, none, none, none, none⟩ (fun _ => 0)).1 := by
  intro h
  have hl := congrArg List.length h
  simp [VKBot.handle_message, VKBot.handlersOf] at hl

/-- C8 (amended). Both registration operations append exactly one
`Handler` at the tail of the ordered sequence, never removing or reordering
existing entries, and return the decorated callback unchanged; they are not
idempotent — a second identical registration appends a second entry. -/
theorem registration_appends {ε : Type} (self : VKBot)
    (registry : List (Handler ε)) (args : MessageRule)
    (ro : Option RuleI) (et : String) (f g : Event → ε) :
    (self.handle_message registry args f).1 = registry ++ [⟨f, .msgR args⟩] ∧
    (self.handle_message registry args f).2 = f ∧
    (∃ h : Handler ε, (self.handle_event registry ro et g).1 = registry ++ [h] ∧
      h.func = g) ∧
    (self.handle_event registry ro et g).2 = g ∧
    (self.handle_message (self.handle_message registry args f).1 args f).1
      = registry ++ [⟨f, .msgR args⟩] ++ [⟨f, .msgR args⟩] := by
  refine ⟨rfl, rfl, ?_, ?_, by simp [VKBot.handle_message, VKBot.handlersOf]⟩
  · cases ro with
    | none => exact ⟨⟨g, .typeR ⟨et, none⟩⟩, rfl, rfl⟩
    | some r => exact ⟨⟨g, r⟩, rfl, rfl⟩
  · cases ro with
    | none => rfl
    | some r => rfl

/-! ## C10: the registry is class-level, shared by all instances -/

/-- C10 (confirmed). `_handlers` (line 100) is a class attribute and no
instance ever shadows it, so registration through any instance appends to
the one shared list, the decorators return the decorated callback unchanged,
and *every* instance's `run` loop reads the updated sequence: a handler
registered via `b1` is offered events by `b2`'s dispatch — concretely, when
the new rule matches and every previously registered handler cleanly
rejects, `b2`'s dispatch over the shared registry invokes exactly the new
callback. -/
theorem handlers_shared {ε : Type} (b1 b2 : VKBot)
    (registry : List (Handler ε)) (args : MessageRule)
    (ro : Option RuleI) (et : String) (f g : Event → ε) :
    b1.handle_message registry args f = b2.handle_message registry args f ∧
    b1.handle_event registry ro et g = b2.handle_event registry ro et g ∧
    (b1.handle_message registry args f).2 = f ∧
    b2.handlersOf (b1.handle_message registry args f).1
      = registry ++ [⟨f, .msgR args⟩] ∧
    (∀ (reload : Bool) (fuel : Nat) (servers : List PollDesc)
        (polls : List PollResp),
      b2.run (b1.handle_message registry args f).1 reload fuel servers polls
        = runLoop (registry ++ [⟨f, .msgR args⟩]) reload fuel .acquire
            .noneV servers polls) ∧
    (∀ (ev : Event) (v : PyVal), MessageRule.check args ev = .ok v →
      pyTruthy v = true →
      (∀ h ∈ registry, ∃ u, h.rule.check ev = .ok u ∧ pyTruthy u = false) →
      dispatchEvent (b2.handlersOf (b1.handle_message registry args f).1) ev
        = .ok ([f ev], true)) := by
  refine ⟨rfl, ?_, rfl, rfl, fun _ _ _ _ => rfl, ?_⟩
  · cases ro with
    | none => rfl
    | some r => rfl
  · intro ev v hv hvt hreg
    have : dispatchEvent (registry ++ [(⟨f, .msgR args⟩ : Handler ε)]) ev
        = .ok ([f ev], true) := by
      rw [dispatchEvent_skip registry _ ev hreg]
      exact dispatchEvent_fire ⟨f, .msgR args⟩ [] ev v hv hvt
    exact this

/-- Witness for `handlers_shared`: two distinct bot instances and a
one-command rule over an empty prior registry. -/
theorem handlers_shared_witness :
    VKBot.handle_message (ε := Nat) ⟨"5.80", 1⟩ []
        ⟨none, none, none, none, none, some ["/start"]⟩ (fun _ => 3)
      = VKBot.handle_message (ε := Nat) ⟨"5.90", 2⟩ []
        ⟨none, none, none, none, none, some ["/start"]⟩ (fun _ => 3) ∧
    VKBot.handle_event (ε := Nat) ⟨"5.80", 1⟩ [] none "message_new" (fun _ => 4)
      = VKBot.handle_event (ε := Nat) ⟨"5.90", 2⟩ [] none "message_new"
          (fun _ => 4) ∧
    (VKBot.handle_message (ε := Nat) ⟨"5.80", 1⟩ []
        ⟨none, none, none, none, none, some ["/start"]⟩ (fun _ => 3)).2
      = (fun _ => 3) ∧
    VKBot.handlersOf ⟨"5.90", 2⟩
        (VKBot.handle_message (ε := Nat) ⟨"5.80", 1⟩ []
          ⟨none, none, none, none, none, some ["/start"]⟩ (fun _ => 3)).1
      = [] ++ [⟨fun _ => 3,
          .msgR ⟨none, none, none, none, none, some ["/start"]⟩⟩] ∧
    (∀ (reload : Bool) (fuel : Nat) (servers : List PollDesc)
        (polls : List PollResp),
      VKBot.run ⟨"5.90", 2⟩
          (VKBot.handle_message (ε := Nat) ⟨"5.80", 1⟩ []
            ⟨none, none, none, none, none, some ["/start"]⟩ (fun _ => 3)).1
          reload fuel servers polls
        = runLoop ([] ++ [⟨fun _ => 3,
            .msgR ⟨none, none, none, none, none, some ["/start"]⟩⟩]) reload
            fuel .acquire .noneV servers polls) ∧
    (∀ (ev : Event) (v : PyVal),
      MessageRule.check ⟨none, none, none, none, none, some ["/start"]⟩ ev
        = .ok v →
      pyTruthy v = true →
      (∀ h ∈ ([] : List (Handler Nat)),
        ∃ u, h.rule.check ev = .ok u ∧ pyTruthy u = false) →
      dispatchEvent (VKBot.handlersOf ⟨"5.90", 2⟩
          (VKBot.handle_message (ε := Nat) ⟨"5.80", 1⟩ []
            ⟨none, none, none, none, none, some ["/start"]⟩ (fun _ => 3)).1) ev
        = .ok ([(fun (_ : Event) => 3) ev], true)) :=
  handlers_shared ⟨"5.80", 1⟩ ⟨"5.90", 2⟩ []
    ⟨none, none, none, none, none, some ["/start"]⟩ none "message_new"
    (fun _ => 3) (fun _ => 4)

/-! ## C3: failure code 1 retries with an unchanged cursor -/

/-- C3 (confirmed). A response with failure code 1 makes the loop
`continue` (line 140): the emitted action is the poll itself, and the
continuation is again the poll phase with the *same* cursor, the server
stream untouched (no `getLongPollServer` call); in particular, whenever the
loop issues another request, the very next emitted action is a poll with the
identical `ts` and no `acquire` stands between the two polls. -/
theorem poll_failed1_retries {ε : Type} (hs : List (Handler ε))
    (reload : Bool) (fuel : Nat) (ts : PyVal) (servers : List PollDesc)
    (r : PollResp) (prest : List PollResp)
    (h : r.failed = some 1) :
    (runLoop hs reload (fuel + 1) .poll ts servers (r :: prest)
      = Act.poll ts :: runLoop hs reload fuel .poll ts servers prest) ∧
    (∀ (fuel2 : Nat) (r2 : PollResp) (prest2 : List PollResp),
      prest = r2 :: prest2 →
      (runLoop hs reload (fuel2 + 2) .poll ts servers (r :: prest)).take 2
        = [Act.poll ts, Act.poll ts]) := by
  constructor
  · simp [runLoop, h, failedTruthy]
  · rintro fuel2 r2 prest2 rfl
    simp [runLoop, h, failedTruthy]

/-- Witness for `poll_failed1_retries`: a concrete code-1 response followed
by another scripted response. -/
theorem poll_failed1_retries_witness :
    (runLoop (ε := Nat) [] true (3 + 1) .poll (.intV 5) []
        [⟨some 1, [], none⟩, ⟨some 1, [], none⟩]
      = Act.poll (.intV 5) :: runLoop (ε := Nat) [] true 3 .poll (.intV 5) []
          [⟨some 1, [], none⟩]) ∧
    (∀ (fuel2 : Nat) (r2 : PollResp) (prest2 : List PollResp),
      ([⟨some 1, [], none⟩] : List PollResp) = r2 :: prest2 →
      (runLoop (ε := Nat) [] true (fuel2 + 2) .poll (.intV 5) []
          [⟨some 1, [], none⟩, ⟨some 1, [], none⟩]).take 2
        = [Act.poll (.intV 5), Act.poll (.intV 5)]) :=
  poll_failed1_retries [] true 3 (.intV 5) [] ⟨some 1, [], none⟩
    [⟨some 1, [], none⟩] rfl

/-! ## C4: other failure codes re-acquire only under reload -/

/-- C4 (refuted as stated): the claim says a failure code other than 1
triggers exactly one re-acquisition before the next poll *irrespective of
configuration*, but with `reload=False` (the default) a code-2 response ends
the run: the whole trace is acquire, poll, shutdown — zero re-acquisitions
(one `acquire` in total, the initial one) and no further poll. -/
theorem run_failedOther_no_reacquire_cex :
    runLoop (ε := Nat) [] false 5 .acquire .noneV [⟨"s", "k", .intV 7⟩]
        [⟨some 2, [], none⟩]
      = [Act.acquire, Act.poll (.intV 7), Act.shutdown] ∧
    (runLoop (ε := Nat) [] false 5 .acquire .noneV [⟨"s", "k", .intV 7⟩]
        [⟨some 2, [], none⟩]).countP
        (fun a => match a with | Act.acquire => true | _ => false) = 1 :=
  ⟨rfl, rfl⟩

/-- C4 (amended). On a truthy failure code other than 1, the loop
abandons the polling session (line 142): with `reload=True` it performs
exactly one re-acquisition before the next poll — the trace continues
`poll, acquire` and resumes polling with the fresh descriptor's cursor, no
other action in between — while with `reload=False` it emits the poll and
shuts down. -/
theorem poll_failedOther_reacquires {ε : Type} (hs : List (Handler ε))
    (fuel : Nat) (ts : PyVal) (d : PollDesc) (srest : List PollDesc)
    (servers2 : List PollDesc) (r : PollResp) (prest : List PollResp)
    (h1 : failedTruthy r.failed = true) (h2 : r.failed ≠ some 1) :
    (runLoop hs true (fuel + 2) .poll ts (d :: srest) (r :: prest)
      = Act.poll ts :: Act.acquire ::
          runLoop hs true fuel .poll d.ts srest prest) ∧
    (runLoop hs false (fuel + 1) .poll ts servers2 (r :: prest)
      = [Act.poll ts, Act.shutdown]) := by
  constructor
  · simp [runLoop, h1, h2]
  · simp [runLoop, h1, h2]

/-- Witness for `poll_failedOther_reacquires`: a concrete code-3 response. -/
theorem poll_failedOther_reacquires_witness :
    (runLoop (ε := Nat) [] true (1 + 2) .poll (.intV 5) [⟨"s2", "k2", .intV 8⟩]
        [⟨some 3, [], none⟩]
      = Act.poll (.intV 5) :: Act.acquire ::
          runLoop (ε := Nat) [] true 1 .poll (.intV 8) [] []) ∧
    (runLoop (ε := Nat) [] false (1 + 1) .poll (.intV 5) []
        [⟨some 3, [], none⟩]
      = [Act.poll (.intV 5), Act.shutdown]) :=
  poll_failedOther_reacquires [] 1 (.intV 5) ⟨"s2", "k2", .intV 8⟩ [] []
    ⟨some 3, [], none⟩ [] rfl (by simp)

/-! ## C5: cursor adoption across successful cycles -/

/-- C5 (confirmed). Across any run of consecutive successful responses
(falsy `failed`, batches dispatching without exception), the trace is: for
each cycle, a poll carrying the current cursor followed by that batch's
dispatch actions, after which — only then — the cursor becomes the
response's `ts` (defaulting to `1` when absent, line 158) and is the one
carried by the next poll; the residual loop continues from `finalTs`, the
fold of that adoption rule. -/
theorem run_success_cursor {ε : Type} (hs : List (Handler ε)) (reload : Bool)
    (rs : List PollResp) (fuel : Nat) (ts : PyVal) (servers : List PollDesc)
    (prest : List PollResp)
    (hrs : ∀ r ∈ rs, failedTruthy r.failed = false ∧
      (batchActs hs r.updates).2 = none) :
    runLoop hs reload (rs.length + fuel) .poll ts servers (rs ++ prest)
      = successTrace hs ts rs ++
          runLoop hs reload fuel .poll (finalTs ts rs) servers prest := by
  revert hrs
  induction rs generalizing ts with
  | nil => intro _; simp [successTrace, finalTs]
  | cons r rest ih =>
    intro hrs
    obtain ⟨h1, h2⟩ := hrs r (by simp)
    have hlen : (r :: rest).length + fuel = (rest.length + fuel) + 1 := by
      simp [List.length_cons]; omega
    rw [hlen, List.cons_append, runLoop]
    rcases hB : batchActs hs r.updates with ⟨acts, er⟩
    rw [hB] at h2
    simp only at h2
    subst h2
    rw [successTrace, finalTs, hB]
    simp only [h1, Bool.false_eq_true, if_false]
    rw [ih (r.ts.getD (.intV 1)) (fun x hx => hrs x (by simp [hx]))]
    simp

/-- Witness for `run_success_cursor`: two successful responses, the first
carrying `ts = 7`, the second lacking `ts` (so the cursor defaults to 1). -/
theorem run_success_cursor_witness :
    runLoop (ε := Nat) [] true
        (([⟨none, [], some (.intV 7)⟩, ⟨none, [], none⟩] :
            List PollResp).length + 1)
        .poll (.intV 5) []
        ([⟨none, [], some (.intV 7)⟩, ⟨none, [], none⟩] ++
          [⟨some 1, [], none⟩])
      = successTrace [] (.intV 5)
          [⟨none, [], some (.intV 7)⟩, ⟨none, [], none⟩] ++
        runLoop (ε := Nat) [] true 1 .poll
          (finalTs (.intV 5) [⟨none, [], some (.intV 7)⟩, ⟨none, [], none⟩])
          [] [⟨some 1, [], none⟩] :=
  run_success_cursor [] true
    [⟨none, [], some (.intV 7)⟩, ⟨none, [], none⟩] 1 (.intV 5) []
    [⟨some 1, [], none⟩]
    (by
      intro r hr
      simp only [List.mem_cons, List.not_mem_nil, or_false] at hr
      rcases hr with rfl | rfl <;> exact ⟨rfl, rfl⟩)
